import Mathlib

/-!
Verification of the cyclescan research pipeline (src/data).

The Python scripts are shallowly embedded as pure Lean functions:
- `BatchResearch` models `src/data/batch_research.py` (classifier, batch loop).
- `RAU` models `src/data/research_all_unknowns.py` (its `identify_token`).
- `SmartBatch` models `src/data/smart_batch_research.py`.
- `ResearchNew` models `src/data/research_new_canisters.py` (`identify_project`).
- `Resume` models `src/data/load_researched.py` and `src/data/find_unresearched.py`.
- `RunBatch` models the checkpointed main loop shared by the batch scripts.
- `Consolidate` models `src/data/consolidate_results.py`.

Network probes (`dfx` subprocess calls) are side-effect-free reads; their
outcomes are modelled as evidence values passed to the classifier, and the
external label-sink write is a boolean outcome parameter.  File writes are
modelled as the `saved_*` components of the run state.
-/

set_option maxRecDepth 8000

namespace Cyclescan

/-- `pat` is an initial segment of `l`. -/
def leadsWith : List Char → List Char → Bool
  | [], _ => true
  | _ :: _, [] => false
  | p :: ps, c :: cs => p == c && leadsWith ps cs

/-- `pat` occurs contiguously somewhere in `l`. -/
def occursIn (pat : List Char) : List Char → Bool
  | [] => pat.isEmpty
  | c :: cs => leadsWith pat (c :: cs) || occursIn pat cs

/-- Python substring containment, `sub in s` (computed on the character
lists so that the kernel can evaluate it). -/
def pyContains (s sub : String) : Bool :=
  occursIn sub.toList s.toList

/-- Python `s.startswith(pre)`. -/
def pyStarts (s pre : String) : Bool :=
  leadsWith pre.toList s.toList

/-- Python `s.endswith(suf)`. -/
def pyEnds (s suf : String) : Bool :=
  leadsWith suf.toList.reverse s.toList.reverse

/-- Python `s[:n]`. -/
def pyTake (s : String) (n : Nat) : String :=
  String.mk (s.toList.take n)

/-- Python string comparison `a <= b` (lexicographic on code points). -/
def charListLe : List Char → List Char → Bool
  | [], _ => true
  | _ :: _, [] => false
  | x :: xs, y :: ys =>
    if x.toNat < y.toNat then true
    else if y.toNat < x.toNat then false
    else charListLe xs ys

/-- Python string comparison `a <= b`. -/
def strLe (a b : String) : Bool :=
  charListLe a.toList b.toList

/-- Insert into a `strLe`-sorted list, keeping sortedness. -/
def sortedInsert (x : String) : List String → List String
  | [] => [x]
  | y :: ys => if strLe x y then x :: y :: ys else y :: sortedInsert x ys

/-- Python `sorted()` on strings: the unique `strLe`-ordered rearrangement
(insertion sort; any correct sort of strings produces the same list). -/
def pySorted (l : List String) : List String :=
  l.foldr sortedInsert []

/-- Python `set(...)` membership collapse: keep the first occurrence of each
string (the later `sorted()` makes the retention order irrelevant). -/
def dedupKeep (l : List String) : List String :=
  l.foldl (fun acc x => if acc.contains x then acc else acc ++ [x]) []

/-- Python truthiness of an optional string (`None` and `""` are falsy). -/
def optTruthy : Option String → Bool
  | some s => s != ""
  | none => false

/-- The progress-tracker record of `research_progress.json`
(`load_progress` in batch_research.py / research_all_unknowns.py).
The `last_updated` timestamp field is omitted: it is overwritten with the
wall clock on every save and no claim concerns it. -/
structure ProgressState where
  total_canisters : Nat
  researched : Nat
  identified : Nat
  unknown_documented : Nat
  remaining : Nat
  last_canister_id : Option String
deriving Repr, DecidableEq

namespace BatchResearch

/-- A result record as built by `research_canister` in batch_research.py.
Keys that a given branch never sets are `none` / `false` / `[]` defaults. -/
structure RRecord where
  canister_id : String
  burn_rank : Nat
  last_researched : String
  candid_available : Bool := false
  candid_summary : Option String := none
  is_token : Bool := false
  token_name : Option String := none
  token_symbol : Option String := none
  project : Option String := none
  category : Option String := none
  reason : Option String := none
  ledger_id : Option String := none
  notes : String := ""
  methods_tried : List String := []
deriving Repr, DecidableEq

/-- The evidence gathered for one canister by the three read-only probes of
batch_research.py: `query_candid` (text already truncated to 500 chars by the
probe), `query_icrc1` (name and symbol, both present on success), and
`query_index` (the ledger id) followed by `query_icrc1` on that ledger. -/
structure Evidence where
  candid : Option String := none
  token : Option (String × String) := none
  index : Option String := none
  ledgerToken : Option (String × String) := none
deriving Repr, DecidableEq

/-- `identify_token` from batch_research.py (lines 127-138). -/
def identify_token (_name symbol : String) : Option String × String :=
  if pyEnds symbol "•ODIN" then
    (some "ODIN.fun", "token")
  else if pyStarts symbol "ck" then
    (some (symbol ++ " Ledger"), "nns_infrastructure")
  else
    (none, "token")

/-- `research_canister` from batch_research.py (lines 140-238), as a function
of the probe outcomes.  `sinkOk` is the boolean returned by
`set_project_backend`; the code branches on it (to print a retry note) but
returns the identified result either way. -/
def research_canister (canister_id : String) (rank : Nat) (today : String)
    (ev : Evidence) (sinkOk : Bool) : String × RRecord :=
  let base : RRecord :=
    { canister_id := canister_id, burn_rank := rank, last_researched := today,
      candid_available := ev.candid.isSome, candid_summary := ev.candid }
  match ev.token with
  | some (token_name, token_symbol) =>
    let r1 := { base with is_token := true, token_name := some token_name,
                          token_symbol := some token_symbol }
    match identify_token token_name token_symbol with
    | (some project, category) =>
      let r2 := { r1 with project := some project, category := some category,
                          notes := "Auto-identified " ++ token_symbol ++ " token" }
      if sinkOk then ("identified", r2) else ("identified", r2)
    | (none, _) =>
      ("unknown",
        { r1 with project := none, reason := some "token_unknown_project",
                  notes := "ICRC-1 token " ++ token_name ++ " (" ++ token_symbol
                    ++ ") - project not identified" })
  | none =>
    match ev.index with
    | some ledger_id =>
      match ev.ledgerToken with
      | some (_ledger_name, ledger_symbol) =>
        let project := ledger_symbol ++ " Index"
        let r2 := { base with project := some project,
                              category := some "nns_infrastructure",
                              ledger_id := some ledger_id,
                              notes := "Index for " ++ ledger_symbol ++ " ledger" }
        if sinkOk then ("identified", r2) else ("identified", r2)
      | none =>
        ("unknown",
          { base with project := none, reason := some "index_ledger_unknown",
                      ledger_id := some ledger_id,
                      notes := "Index canister for " ++ ledger_id
                        ++ " but could not identify token" })
    | none =>
      ("unknown",
        { base with project := none,
                    reason := some (if ev.candid.isSome then "candid_unrecognizable"
                                    else "no_candid_metadata"),
                    methods_tried := ["candid:service", "icrc1_name",
                                      "icrc1_symbol", "ledger_id"],
                    notes := "Auto-identification failed - needs manual research" })

end BatchResearch

namespace RAU

/-- `identify_token` from research_all_unknowns.py (lines 120-126).  The ODIN
suffix literal in that file is mojibake: the bullet was double-encoded and the
source bytes decode to the three characters U+201A U+00C4 U+00A2 instead of
the single bullet U+2022 used by batch_research.py. -/
def identify_token (_name symbol : String) : Option String × String :=
  if pyEnds symbol "‚Ä¢ODIN" then
    (some "ODIN.fun", "token")
  else if pyStarts symbol "ck" then
    (some (symbol ++ " Ledger"), "nns_infrastructure")
  else
    (none, "token")

end RAU

namespace SmartBatch

/-- Evidence gathered by smart_batch_research.py for one canister:
`query_icrc1` (name may be absent while symbol is present), `query_ledger_id`,
`query_icrc1` on that ledger (only its symbol is used), and `query_candid`
(untruncated stdout). -/
structure SEvidence where
  name : Option String := none
  symbol : Option String := none
  ledger_id : Option String := none
  ledger_symbol : Option String := none
  candid : Option String := none
deriving Repr, DecidableEq

/-- The result dict built by `research_canister` in smart_batch_research.py;
the three return shapes are merged into one structure with optional keys. -/
structure SRecord where
  cid : String
  project : Option String := none
  rtype : Option String := none
  category : Option String := none
  reason : Option String := none
  candid : Option String := none
deriving Repr, DecidableEq

/-- `identify_by_candid` from smart_batch_research.py (lines 46-81). -/
def identify_by_candid : Option String → Option String × String
  | none => (none, "no_candid_metadata")
  | some candid =>
    if pyContains candid "CreateAssetArguments" && pyContains candid "BatchId"
        && pyContains candid "ChunkId" then
      (some "Asset Canister", "infrastructure")
    else if pyContains candid "RequestPolicy" && pyContains candid "AssetSymbol"
        && pyContains candid "NetworkId" then
      (some "Orbit Station", "infrastructure")
    else if (pyContains candid "hub_principal" && pyContains candid "GenerateTicketReq")
        || pyContains candid "omnity_chain_id" then
      (some "Omnity", "defi")
    else if (pyContains candid "customs" && pyContains candid "indexer")
        || pyContains candid "RuneBalance" then
      (some "OmniBTC", "defi")
    else if pyContains candid "GetTransactionsResponse"
        && pyContains candid "ArchivedTransaction" then
      (some "ICRC-1 Archive", "infrastructure")
    else if pyContains candid "BlockIndex" && pyContains candid "Transaction"
        && pyContains candid "service : \x7b\x7d" then
      (some "ICRC-1 Archive", "infrastructure")
    else if pyContains candid "EthMainnetService" || pyContains candid "EthSepoliaService" then
      (some "EVM RPC", "infrastructure")
    else if pyContains candid "EtchingArgs" && pyContains candid "rune_name" then
      (some "Bitcoin Runes Etching", "infrastructure")
    else
      (none, "candid_unrecognizable")

/-- The tail of `research_canister` in smart_batch_research.py (lines 118-128):
classify by Candid after the token and index branches fell through. -/
def candidBranch (cid : String) (candid : Option String) : SRecord :=
  match identify_by_candid candid with
  | (some project, category) =>
    { cid := cid, project := some project, category := some category }
  | (none, category) =>
    { cid := cid, project := none, reason := some category,
      candid := candid.map (fun c => pyTake c 200) }

/-- `research_canister` from smart_batch_research.py (lines 92-128) as a
function of the probe outcomes.  The `set_project` sink call has no influence
on the returned dict (its boolean is never consulted), so it does not appear. -/
def research_canister (cid : String) (ev : SEvidence) : SRecord :=
  match ev.symbol with
  | some symbol =>
    let project :=
      if pyEnds symbol "•ODIN" then "ODIN.fun"
      else if pyStarts symbol "ck" then symbol ++ " Ledger"
      else symbol ++ " Token"
    { cid := cid, project := some project, rtype := some "token" }
  | none =>
    match ev.ledger_id with
    | some _ledger =>
      match ev.ledger_symbol with
      | some ledger_symbol =>
        { cid := cid, project := some (ledger_symbol ++ " Index"), rtype := some "index" }
      | none => candidBranch cid ev.candid
    | none => candidBranch cid ev.candid

end SmartBatch

namespace ResearchNew

/-- `identify_project` from research_new_canisters.py (lines 83-96); the
canister-id parameter is unused by the code. `name` and `symbol` arrive as the
strings parsed from the token probes; an empty name is falsy in Python. -/
def identify_project (name symbol : String) : String × String :=
  if name = "" then
    ("Unknown", "No token interface")
  else if pyContains name "ODIN" || pyContains symbol "ODIN" then
    ("ODIN.fun", "Token: " ++ name ++ " (" ++ symbol ++ ")")
  else if pyContains symbol "WELL" then
    ("FomoWell", "Token: " ++ name ++ " (" ++ symbol ++ ")")
  else if pyContains symbol ".OT" then
    ("Ordi Trade", "Token: " ++ name ++ " (" ++ symbol ++ ")")
  else
    ("Unknown Token", "Token: " ++ name ++ " (" ++ symbol ++ ")")

end ResearchNew

namespace Resume

open BatchResearch

/-- One element of `unknowns_to_research.json`, as consumed by
load_researched.py (`canister_id` plus the burn rate used only for display). -/
structure Candidate where
  canister_id : String
  burn : Nat := 0
deriving Repr, DecidableEq

/-- `load_researched` from load_researched.py (lines 7-44): the union of the
`canister_id` fields over every entry of every loaded result store. -/
def researchedIds (stores : List (List RRecord)) : List String :=
  (stores.map (fun store => store.map (fun e => e.canister_id))).flatten

/-- The `needs_research` filter of load_researched.py (line 58): keep the
candidates whose id is not already present in a loaded store. -/
def needs_research (unknowns : List Candidate) (stores : List (List RRecord)) :
    List Candidate :=
  unknowns.filter (fun u => !((researchedIds stores).contains u.canister_id))

/-- The set difference of find_unresearched.py (lines 28-35):
`current_unknowns - researched`, saved as a sorted list of ids. -/
def unresearched (current_unknowns : List String) (stores : List (List RRecord)) :
    List String :=
  pySorted ((dedupKeep current_unknowns).filter
    (fun c => !((researchedIds stores).contains c)))

/-- The start of a restarted batch (batch_research.py main, lines 243-250):
load the candidate list produced by the membership filter, load the stale
progress record, and reset only its total.  The candidate list computation
never consults the progress record. -/
def resume_start (p : ProgressState) (unknowns : List Candidate)
    (stores : List (List RRecord)) : ProgressState × List Candidate :=
  let canisters := needs_research unknowns stores
  ({ p with total_canisters := canisters.length }, canisters)

end Resume

namespace RunBatch

open BatchResearch

/-- What happens at one iteration of the main loop of batch_research.py
(lines 261-299): `research_canister` returns normally (`ok`, carrying whether
the status string was "identified" and the result record), raises an
unexpected exception (`err`, carrying the candidate id), or the operator
interrupts (`intr`). -/
inductive Event where
  | ok (identified : Bool) (r : RRecord)
  | err (cid : String)
  | intr
deriving Repr, DecidableEq

/-- The state of a batch run: the two in-memory result lists and progress
record, and the durable (`saved_*`) copies last written to disk by
`save_results` / `save_progress`. -/
structure RunState where
  identified_results : List RRecord
  unknown_results : List RRecord
  progress : ProgressState
  saved_identified : List RRecord
  saved_unknown : List RRecord
  saved_progress : ProgressState
deriving Repr, DecidableEq

/-- The three consecutive save calls (`save_results` twice, `save_progress`):
write the in-memory stores and progress to durable storage. -/
def flush (s : RunState) : RunState :=
  { s with saved_identified := s.identified_results,
           saved_unknown := s.unknown_results,
           saved_progress := s.progress }

/-- The durable copies agree with the in-memory state. -/
def synced (s : RunState) : Prop :=
  s.saved_identified = s.identified_results ∧
  s.saved_unknown = s.unknown_results ∧
  s.saved_progress = s.progress

instance (s : RunState) : Decidable (synced s) := by
  unfold synced; infer_instance

/-- Recording one successful candidate (batch_research.py lines 267-278):
append to the matching store, bump the matching counter plus `researched`,
set `last_canister_id`, and recompute `remaining = total - i` for the 1-based
loop index `i`. -/
def record (total i : Nat) (idFlag : Bool) (r : RRecord) (s : RunState) : RunState :=
  let s1 :=
    if idFlag then
      { s with identified_results := s.identified_results ++ [r],
               progress := { s.progress with identified := s.progress.identified + 1 } }
    else
      { s with unknown_results := s.unknown_results ++ [r],
               progress := { s.progress with
                 unknown_documented := s.progress.unknown_documented + 1 } }
  { s1 with progress := { s1.progress with
      researched := s1.progress.researched + 1,
      last_canister_id := some r.canister_id,
      remaining := total - i } }

/-- One loop iteration at 1-based index `i`.  On success the periodic
checkpoint fires when `i % K == 0` (K is the literal 10 in batch_research.py
and 50 in research_all_unknowns.py); an exception leaves the state untouched
and control continues; an interrupt saves everything. -/
def stepEv (K total i : Nat) (s : RunState) : Event → RunState
  | .ok idFlag r =>
    let s1 := record total i idFlag r s
    if i % K == 0 then flush s1 else s1
  | .err _ => s
  | .intr => flush s

/-- The main loop from 1-based index `i` over the remaining per-candidate
events: an interrupt saves and exits, the end of the list performs the final
save, and everything else steps and continues. -/
def runAux (K total : Nat) (i : Nat) (s : RunState) : List Event → RunState
  | [] => flush s
  | Event.intr :: _ => flush s
  | Event.ok b r :: es => runAux K total (i + 1) (stepEv K total i s (.ok b r)) es
  | Event.err c :: es => runAux K total (i + 1) (stepEv K total i s (.err c)) es

/-- The sequence of states after each executed loop iteration (the run stops
right after an interrupt). -/
def traceAux (K total : Nat) (i : Nat) (s : RunState) : List Event → List RunState
  | [] => []
  | Event.intr :: _ => [flush s]
  | e :: es =>
    let s1 := stepEv K total i s e
    s1 :: traceAux K total (i + 1) s1 es

/-- The state at the start of a run (batch_research.py main, lines 248-254):
in-memory stores are the loaded durable files, the progress total is reset to
the candidate count, and the durable progress file still holds the loaded
record. -/
def initState (p : ProgressState) (loadedIdentified loadedUnknown : List RRecord)
    (total : Nat) : RunState :=
  { identified_results := loadedIdentified, unknown_results := loadedUnknown,
    progress := { p with total_canisters := total },
    saved_identified := loadedIdentified, saved_unknown := loadedUnknown,
    saved_progress := p }

/-- A whole batch run. -/
def runBatch (K : Nat) (p : ProgressState) (loadedIdentified loadedUnknown : List RRecord)
    (events : List Event) : RunState :=
  runAux K events.length 1 (initState p loadedIdentified loadedUnknown events.length) events

/-- The ids present in a store. -/
def ids (store : List RRecord) : List String :=
  store.map (fun r => r.canister_id)

end RunBatch

namespace Consolidate

/-- One value of the per-canister dicts built by `load_original_research` and
`load_new_research` in consolidate_results.py. -/
structure CRecord where
  project : String
  rtype : String
  token_name : Option String := none
  token_symbol : Option String := none
  notes : String := ""
deriving Repr, DecidableEq

/-- A Python dict keyed by canister id, modelled as its insertion-ordered
entry list (keys unique for dicts produced by the loaders). -/
abbrev Dict := List (String × CRecord)

/-- The Python dict merge `{**a, **b}` (consolidate_results.py line 175):
keys of `a` in their order with values overridden by `b` where present,
followed by the keys only in `b`. -/
def pyMerge (a b : Dict) : Dict :=
  (a.map (fun kv =>
    match b.lookup kv.1 with
    | some v => (kv.1, v)
    | none => kv))
  ++ b.filter (fun kv => (a.lookup kv.1).isNone)

/-- The static suffix table placed at key `by_token_pattern` of
project_mappings.json (consolidate_results.py lines 72-76). -/
def by_token_pattern : List (String × String) :=
  [("ODIN", "ODIN.fun (Bioniq)"), ("WELL", "FomoWell"), (".OT", "Ordi Trade")]

/-- The dynamic parts of project_mappings.json. -/
structure Mappings where
  by_canister : List (String × String)
  icrc1_tokens : List (String × Option String × Option String × Option String)
  non_token_canisters : List String
  unknown : List String
deriving Repr, DecidableEq

/-- `create_project_mappings` from consolidate_results.py (lines 67-101): one
pass over the merged dict in order, appending to the four collections.  The
recursion processes the head first, so each collection keeps input order
exactly as the Python loop does. -/
def create_project_mappings : Dict → Mappings
  | [] => { by_canister := [], icrc1_tokens := [], non_token_canisters := [], unknown := [] }
  | (cid, data) :: rest =>
    let m := create_project_mappings rest
    { by_canister :=
        (if data.project != "Unknown" && data.project != "Unknown Token"
         then [(cid, data.project)] else []) ++ m.by_canister,
      icrc1_tokens :=
        (if data.rtype == "token" && optTruthy data.token_name
         then [(cid, data.token_name, data.token_symbol,
                if data.project == "Unknown Token" then none else some data.project)]
         else []) ++ m.icrc1_tokens,
      non_token_canisters :=
        (if data.rtype != "token" && data.project != "Unknown"
         then [cid] else []) ++ m.non_token_canisters,
      unknown :=
        (if data.rtype != "token" && data.project == "Unknown"
         then [cid] else []) ++ m.unknown }

/-- Python `{n:,}` formatting: group the reversed digit list in threes. -/
def groupRev : List Char → List Char
  | a :: b :: c :: d :: rest => a :: b :: c :: ',' :: groupRev (d :: rest)
  | l => l

/-- Python `{n:,}` on a natural number. -/
def fmtThousands (n : Nat) : String :=
  String.mk ((groupRev (toString n).toList.reverse).reverse)

/-- Python `{100*num/den:.1f}` for the percentage lines, rendered with exact
decimal arithmetic (round half up on the single kept decimal; CPython formats
the binary float, which agrees except on representation boundaries — the
claims evaluate it only away from those). -/
def fmtPct1 (num den : Nat) : String :=
  let tenths := (2000 * num + den) / (2 * den)
  toString (tenths / 10) ++ "." ++ toString (tenths % 10)

/-- The statistics block interpolated by `update_master_doc`
(consolidate_results.py lines 130-140) and substituted into
MASTER_CANISTER_RESEARCH.md; `now` is the `datetime.now()` rendering. -/
def statsBlock (total tokens odin unknown_tokens unknown identified : Nat)
    (now : String) : String :=
  "### Summary Statistics\n\n" ++
  "- **Total Canisters:** " ++ fmtThousands total ++ "\n" ++
  "- **Identified Projects:** " ++ fmtThousands identified ++ " (" ++
    fmtPct1 identified total ++ "%)\n" ++
  "- **ICRC-1 Tokens:** " ++ fmtThousands tokens ++ " (" ++
    fmtPct1 tokens total ++ "%)\n" ++
  "  - ODIN.fun: " ++ fmtThousands odin ++ "\n" ++
  "  - Unknown Tokens: " ++ fmtThousands unknown_tokens ++ "\n" ++
  "- **Unknown (Non-token):** " ++ fmtThousands unknown ++ " (" ++
    fmtPct1 unknown total ++ "%)\n\n" ++
  "**Last Updated:** " ++ now ++ "\n"

/-- The statistics of `update_master_doc` (consolidate_results.py lines
122-140) over the merged dict. -/
def masterStats (all_canisters : Dict) (now : String) : String :=
  let total := all_canisters.length
  let tokens := (all_canisters.filter (fun kv => kv.2.rtype == "token")).length
  let odin := (all_canisters.filter (fun kv => kv.2.project == "ODIN.fun")).length
  let unknown_tokens :=
    (all_canisters.filter (fun kv => kv.2.project == "Unknown Token")).length
  let unknown := (all_canisters.filter (fun kv => kv.2.project == "Unknown")).length
  let identified := total - unknown - unknown_tokens
  statsBlock total tokens odin unknown_tokens unknown identified now

/-- `create_csv_export` from consolidate_results.py (lines 103-118): a header
row followed by one row per canister id in sorted key order (rows modelled as
cell lists; the `or ''` renders absent token fields as empty cells). -/
def create_csv_export (all_canisters : Dict) : List (List String) :=
  ["canister_id", "project", "type", "token_name", "token_symbol", "notes"] ::
  ((pySorted (all_canisters.map Prod.fst)).map (fun cid =>
    match all_canisters.lookup cid with
    | some d => [cid, d.project, d.rtype, d.token_name.getD "", d.token_symbol.getD "", d.notes]
    | none => []))

/-- The three artifacts a consolidation run generates. -/
structure Artifacts where
  mappings : Mappings
  csv : List (List String)
  master_stats : String
deriving Repr, DecidableEq

/-- `main` of consolidate_results.py (lines 160-202) over already-loaded
input dicts: merge with `{**original, **new}`, then generate
project_mappings.json, canister_projects.csv, and the master-doc statistics
block (the only part of the master doc the run changes). -/
def consolidate (original new : Dict) (now : String) : Artifacts :=
  let all_canisters := pyMerge original new
  { mappings := create_project_mappings all_canisters,
    csv := create_csv_export all_canisters,
    master_stats := masterStats all_canisters now }

end Consolidate

/-! ## Concrete sample inputs used by instance theorems -/

namespace Samples

open BatchResearch RunBatch Consolidate

/-- A bare store entry for canister id `c`. -/
def bare (c : String) (n : Nat) : RRecord :=
  { canister_id := c, burn_rank := n, last_researched := "2025-01-01" }

/-- Two result stores already holding ids A and B. -/
def storesAB : List (List RRecord) := [[bare "A" 1], [bare "B" 2]]

/-- The candidate universe A, B, C, D. -/
def univABCD : List Resume.Candidate :=
  [{ canister_id := "A", burn := 10 }, { canister_id := "B", burn := 9 },
   { canister_id := "C", burn := 8 }, { canister_id := "D", burn := 7 }]

/-- Token evidence bearing the ODIN suffix. -/
def evOdin : Evidence := { token := some ("Foo", "xyz•ODIN") }

/-- The record the classifier builds for `evOdin`. -/
def rOdin : RRecord :=
  { canister_id := "aaaa", burn_rank := 1, last_researched := "2025-01-01",
    is_token := true, token_name := some "Foo", token_symbol := some "xyz•ODIN",
    project := some "ODIN.fun", category := some "token",
    notes := "Auto-identified xyz•ODIN token" }

/-- An identified-looking result record for the run model. -/
def recN (n : Nat) : RRecord :=
  { canister_id := "c" ++ toString n, burn_rank := n, last_researched := "2025-01-01",
    project := some "P", category := some "token" }

/-- An all-zero loaded progress record. -/
def p0 : ProgressState :=
  { total_canisters := 0, researched := 0, identified := 0, unknown_documented := 0,
    remaining := 0, last_canister_id := none }

/-- A fresh run state over 11 candidates. -/
def st0 : RunState := RunBatch.initState p0 [] [] 11

/-- Eleven loop iterations: nine successes, an exception at input position 10,
then a tenth success at input position 11. -/
def evs11 : List Event :=
  [.ok true (recN 1), .ok true (recN 2), .ok true (recN 3), .ok true (recN 4),
   .ok true (recN 5), .ok true (recN 6), .ok true (recN 7), .ok true (recN 8),
   .ok true (recN 9), .err "c10", .ok true (recN 11)]

/-- A consolidation input record carrying a real project name. -/
def identRec : CRecord := { project := "Foo Wallet", rtype := "backend" }

/-- A consolidation input record for an unidentified canister. -/
def unkRec : CRecord := { project := "Unknown", rtype := "backend" }

/-- Descriptor text containing two of the three asset-canister markers. -/
def assetText2 : String := "service CreateAssetArguments BatchId"

/-- Descriptor text containing all three asset-canister markers. -/
def assetText3 : String := "CreateAssetArguments BatchId ChunkId"

end Samples

/-! ## Claim theorems -/

section Claims

open BatchResearch RunBatch

/-- C1: on a restart, the remaining candidate set is the universe filtered by
membership in the loaded result stores; the loaded (possibly stale) progress
counters have no influence on it; and for the universe A, B, C, D with stores
holding A and B the remaining set is C, D whatever the counters say. -/
theorem c1_resume_correctness (p q : ProgressState) :
    (∀ (unknowns : List Resume.Candidate) (stores : List (List RRecord))
       (u : Resume.Candidate),
       u ∈ (Resume.resume_start p unknowns stores).2 ↔
         u ∈ unknowns ∧ u.canister_id ∉ Resume.researchedIds stores) ∧
    (Resume.resume_start p Samples.univABCD Samples.storesAB).2 =
      (Resume.resume_start q Samples.univABCD Samples.storesAB).2 ∧
    (Resume.resume_start p Samples.univABCD Samples.storesAB).2 =
      Resume.needs_research Samples.univABCD Samples.storesAB ∧
    Resume.needs_research Samples.univABCD Samples.storesAB =
      [{ canister_id := "C", burn := 8 }, { canister_id := "D", burn := 7 }] ∧
    Resume.unresearched ["A", "B", "C", "D"] Samples.storesAB = ["C", "D"] := by
  refine ⟨?_, rfl, rfl, by decide, by decide⟩
  intro unknowns stores u
  simp [Resume.resume_start, Resume.needs_research, List.mem_filter,
    List.elem_iff]

/-- C2 counterexample: a `ck`-prefixed token symbol is identified as
`"ckBTC Ledger"` but with category `nns_infrastructure`, not `token` as the
claim states. -/
theorem c2_counterexample :
    BatchResearch.identify_token "Bitcoin" "ckBTC" =
      (some "ckBTC Ledger", "nns_infrastructure") ∧
    "nns_infrastructure" ≠ "token" := by
  decide

/-- C2 amended: the ODIN-suffix rule yields project `ODIN.fun` with category
`token`; otherwise the `ck`-prefix rule yields `"{symbol} Ledger"` with
category `nns_infrastructure`; and the parallel rule in
research_all_unknowns.py tests a mojibake-corrupted suffix, so there a symbol
ending in the genuine bullet suffix falls through to the unknown-token
outcome. -/
theorem c2_token_rule (n s : String) :
    (pyEnds s "•ODIN" = true →
      BatchResearch.identify_token n s = (some "ODIN.fun", "token")) ∧
    (pyEnds s "•ODIN" = false → pyStarts s "ck" = true →
      BatchResearch.identify_token n s =
        (some (s ++ " Ledger"), "nns_infrastructure")) ∧
    RAU.identify_token n "xyz•ODIN" = (none, "token") := by
  refine ⟨?_, ?_, rfl⟩
  · intro h; simp [BatchResearch.identify_token, h]
  · intro h1 h2; simp [BatchResearch.identify_token, h1, h2]

/-- C2 witness: both hypothesis branches of `c2_token_rule` discharged at
concrete symbols. -/
theorem c2_token_rule_witness :
    BatchResearch.identify_token "Foo" "xyz•ODIN" = (some "ODIN.fun", "token") ∧
    BatchResearch.identify_token "Bitcoin" "ckBTC" =
      (some ("ckBTC" ++ " Ledger"), "nns_infrastructure") :=
  ⟨(c2_token_rule "Foo" "xyz•ODIN").1 (by decide),
   (c2_token_rule "Bitcoin" "ckBTC").2.1 (by decide) (by decide)⟩

/-- C3 counterexample: smart_batch_research.py classifies a token whose symbol
matches neither pattern as Identified with derived project
`"{symbol} Token"`, contradicting "it is never classified as Identified". -/
theorem c3_counterexample :
    pyEnds "FOO" "•ODIN" = false ∧ pyStarts "FOO" "ck" = false ∧
    SmartBatch.research_canister "aaaa" { symbol := some "FOO" } =
      { cid := "aaaa", project := some "FOO Token", rtype := some "token" } := by
  decide

/-- C3 amended: in batch_research.py a token matching neither pattern is
classified Unknown with reason `token_unknown_project` and the record keeps
the observed name and symbol; in smart_batch_research.py the same evidence is
instead classified Identified with derived project `"{symbol} Token"`. -/
theorem c3_unknown_token (cid : String) (rank : Nat) (today n s : String)
    (c ix : Option String) (lt : Option (String × String)) (sink : Bool)
    (h1 : pyEnds s "•ODIN" = false) (h2 : pyStarts s "ck" = false) :
    BatchResearch.research_canister cid rank today
        { candid := c, token := some (n, s), index := ix, ledgerToken := lt } sink =
      ("unknown",
        { canister_id := cid, burn_rank := rank, last_researched := today,
          candid_available := c.isSome, candid_summary := c,
          is_token := true, token_name := some n, token_symbol := some s,
          project := none, reason := some "token_unknown_project",
          notes := "ICRC-1 token " ++ n ++ " (" ++ s ++ ") - project not identified" }) ∧
    SmartBatch.research_canister cid { symbol := some s } =
      { cid := cid, project := some (s ++ " Token"), rtype := some "token" } := by
  constructor
  · simp [BatchResearch.research_canister, BatchResearch.identify_token, h1, h2]
  · simp [SmartBatch.research_canister, h1, h2]

/-- C3 witness: `c3_unknown_token` at the concrete symbol FOO. -/
theorem c3_unknown_token_witness :
    BatchResearch.research_canister "aaaa" 1 "2025-01-01"
        { candid := none, token := some ("Foo", "FOO"), index := none,
          ledgerToken := none } true =
      ("unknown",
        { canister_id := "aaaa", burn_rank := 1, last_researched := "2025-01-01",
          candid_available := false, candid_summary := none,
          is_token := true, token_name := some "Foo", token_symbol := some "FOO",
          project := none, reason := some "token_unknown_project",
          notes := "ICRC-1 token " ++ "Foo" ++ " (" ++ "FOO" ++
            ") - project not identified" }) ∧
    SmartBatch.research_canister "aaaa" { symbol := some "FOO" } =
      { cid := "aaaa", project := some ("FOO" ++ " Token"), rtype := some "token" } :=
  c3_unknown_token "aaaa" 1 "2025-01-01" "Foo" "FOO" none none none true
    (by decide) (by decide)

/-- C4 counterexample: descriptor text containing `CreateAssetArguments` and
`BatchId` but not `ChunkId` is not identified as an asset canister — the rule
in the code is a three-marker conjunction, not a two-marker threshold. -/
theorem c4_counterexample :
    pyContains Samples.assetText2 "CreateAssetArguments" = true ∧
    pyContains Samples.assetText2 "BatchId" = true ∧
    SmartBatch.identify_by_candid (some Samples.assetText2) =
      (none, "candid_unrecognizable") ∧
    SmartBatch.research_canister "aaaa" { candid := some Samples.assetText2 } =
      { cid := "aaaa", project := none, reason := some "candid_unrecognizable",
        candid := some Samples.assetText2 } := by
  decide

/-- C4 amended: descriptor text containing all three markers
`CreateAssetArguments`, `BatchId`, and `ChunkId`, with no token and no index
evidence, is classified Identified with project `Asset Canister` (category
`infrastructure`). -/
theorem c4_asset_rule (t cid : String)
    (h1 : pyContains t "CreateAssetArguments" = true)
    (h2 : pyContains t "BatchId" = true)
    (h3 : pyContains t "ChunkId" = true) :
    SmartBatch.identify_by_candid (some t) =
      (some "Asset Canister", "infrastructure") ∧
    SmartBatch.research_canister cid { candid := some t } =
      { cid := cid, project := some "Asset Canister",
        category := some "infrastructure" } := by
  have hb : SmartBatch.identify_by_candid (some t) =
      (some "Asset Canister", "infrastructure") := by
    simp [SmartBatch.identify_by_candid, h1, h2, h3]
  refine ⟨hb, ?_⟩
  simp [SmartBatch.research_canister, SmartBatch.candidBranch, hb]

/-- C4 witness: `c4_asset_rule` at a concrete three-marker descriptor. -/
theorem c4_asset_rule_witness :
    SmartBatch.identify_by_candid (some Samples.assetText3) =
      (some "Asset Canister", "infrastructure") ∧
    SmartBatch.research_canister "aaaa" { candid := some Samples.assetText3 } =
      { cid := "aaaa", project := some "Asset Canister",
        category := some "infrastructure" } :=
  c4_asset_rule Samples.assetText3 "aaaa" (by decide) (by decide) (by decide)

/-- C5: when the evidence carries a pattern-matching token symbol and a
descriptor matching a keyword rule, both classifiers return the token-pattern
outcome.  In smart_batch_research.py the returned record is identical with
the descriptor removed (the token branch returns before the descriptor rules
run); in batch_research.py the status, project, and category are those of the
token rule whatever the descriptor text is. -/
theorem c5_token_priority (cid n s : String) (nm lid lsym c : Option String)
    (rank : Nat) (today : String) (ix : Option String)
    (lt : Option (String × String)) (sink : Bool)
    (htok : (pyEnds s "•ODIN" || pyStarts s "ck") = true)
    (_hdesc : (SmartBatch.identify_by_candid c).1.isSome = true) :
    SmartBatch.research_canister cid
        { name := nm, symbol := some s, ledger_id := lid,
          ledger_symbol := lsym, candid := c } =
      SmartBatch.research_canister cid
        { name := nm, symbol := some s, ledger_id := lid,
          ledger_symbol := lsym, candid := none } ∧
    (SmartBatch.research_canister cid
        { name := nm, symbol := some s, ledger_id := lid,
          ledger_symbol := lsym, candid := c }).rtype = some "token" ∧
    (SmartBatch.research_canister cid
        { name := nm, symbol := some s, ledger_id := lid,
          ledger_symbol := lsym, candid := c }).project =
      some (if pyEnds s "•ODIN" then "ODIN.fun"
            else if pyStarts s "ck" then s ++ " Ledger" else s ++ " Token") ∧
    (BatchResearch.research_canister cid rank today
        { candid := c, token := some (n, s), index := ix, ledgerToken := lt }
        sink).1 = "identified" ∧
    (BatchResearch.research_canister cid rank today
        { candid := c, token := some (n, s), index := ix, ledgerToken := lt }
        sink).2.project = (BatchResearch.identify_token n s).1 ∧
    (BatchResearch.research_canister cid rank today
        { candid := c, token := some (n, s), index := ix, ledgerToken := lt }
        sink).2.category = some (BatchResearch.identify_token n s).2 := by
  have hsmart : ∀ cd : Option String,
      SmartBatch.research_canister cid
        { name := nm, symbol := some s, ledger_id := lid,
          ledger_symbol := lsym, candid := cd } =
      { cid := cid,
        project := some (if pyEnds s "•ODIN" then "ODIN.fun"
                         else if pyStarts s "ck" then s ++ " Ledger"
                         else s ++ " Token"),
        rtype := some "token" } := by
    intro cd; simp [SmartBatch.research_canister]
  have hid : ∃ pr ct, BatchResearch.identify_token n s = (some pr, ct) := by
    rcases Bool.or_eq_true_iff.mp htok with h | h
    · exact ⟨"ODIN.fun", "token", by simp [BatchResearch.identify_token, h]⟩
    · by_cases he : pyEnds s "•ODIN" = true
      · exact ⟨"ODIN.fun", "token", by simp [BatchResearch.identify_token, he]⟩
      · exact ⟨s ++ " Ledger", "nns_infrastructure",
          by simp [BatchResearch.identify_token, he, h]⟩
  refine ⟨(hsmart c).trans (hsmart none).symm, ?_, ?_, ?_, ?_, ?_⟩
  · rw [hsmart c]
  · rw [hsmart c]
  all_goals
    rcases hid with ⟨pr, ct, hpr⟩
    all_goals simp [BatchResearch.research_canister, hpr, apply_ite]

/-- C5 witness: `c5_token_priority` at an ODIN token symbol together with a
descriptor that matches the asset-canister rule. -/
theorem c5_token_priority_witness :
    (SmartBatch.research_canister "aaaa"
        { name := some "Foo", symbol := some "xyz•ODIN", ledger_id := none,
          ledger_symbol := none, candid := some Samples.assetText3 } =
      SmartBatch.research_canister "aaaa"
        { name := some "Foo", symbol := some "xyz•ODIN", ledger_id := none,
          ledger_symbol := none, candid := none }) ∧
    (SmartBatch.research_canister "aaaa"
        { name := some "Foo", symbol := some "xyz•ODIN", ledger_id := none,
          ledger_symbol := none, candid := some Samples.assetText3 }).rtype =
      some "token" := by
  have h := c5_token_priority "aaaa" "Foo" "xyz•ODIN" (some "Foo") none none
    (some Samples.assetText3) 1 "2025-01-01" none none true
    (by decide) (by decide)
  exact ⟨h.1, h.2.1⟩

/-! Helper lemmas for the run model. -/

/-- A flushed state is synced. -/
theorem flush_synced (s : RunState) : synced (flush s) :=
  ⟨rfl, rfl, rfl⟩

/-- The run always ends with the durable copies equal to the in-memory state
(the final save on normal completion, the save-then-exit on interrupt). -/
theorem runAux_synced (events : List Event) :
    ∀ (K total i : Nat) (s : RunState), synced (runAux K total i s events) := by
  induction events with
  | nil => intro K total i s; exact flush_synced s
  | cons e es ih =>
    intro K total i s
    cases e with
    | ok b r => exact ih K total (i + 1) _
    | err c => exact ih K total (i + 1) _
    | intr => exact flush_synced s

/-- After any successfully-processed candidate whose 1-based input position is
a multiple of the checkpoint interval, the state in the trace is synced. -/
theorem traceAux_flush_at (events : List Event) (K total : Nat) :
    ∀ (i0 : Nat) (s : RunState) (j : Nat) (sj : RunState) (b : Bool)
      (r : RRecord),
      (traceAux K total i0 s events).get? j = some sj →
      events.get? j = some (Event.ok b r) → (i0 + j) % K = 0 → synced sj := by
  induction events with
  | nil => intro i0 s j sj b r ht he hm; simp [traceAux] at ht
  | cons e es ih =>
    intro i0 s j sj b r ht he hm
    cases j with
    | zero =>
      rw [Nat.add_zero] at hm
      cases e with
      | ok b' r' =>
        simp [traceAux, stepEv, hm] at ht
        rw [← ht]; exact flush_synced _
      | err c => simp at he
      | intr => simp at he
    | succ j' =>
      have hm' : (i0 + 1 + j') % K = 0 := by
        have harg : i0 + 1 + j' = i0 + (j' + 1) := by omega
        rw [harg]; exact hm
      cases e with
      | ok b' r' =>
        simp only [traceAux, List.get?] at ht
        simp only [List.get?] at he
        exact ih (i0 + 1) (stepEv K total i0 s (.ok b' r')) j' sj b r ht he hm'
      | err c =>
        simp only [traceAux, List.get?] at ht
        simp only [List.get?] at he
        exact ih (i0 + 1) (stepEv K total i0 s (.err c)) j' sj b r ht he hm'
      | intr =>
        simp [traceAux] at ht

/-- C6 counterexample: with checkpoint interval 10, a run whose 10th input
position raises an exception reaches its 10th successfully-processed
candidate at input position 11 with the durable stores still in their initial
state — no flush accompanied the 10th processed candidate, although
10 % 10 = 0. -/
theorem c6_counterexample :
    ((traceAux 10 11 1 Samples.st0 Samples.evs11).get? 10).map
      (fun s => (s.progress.researched, decide (synced s))) = some (10, false) ∧
    (10 : Nat) % 10 = 0 := by
  constructor
  · decide
  · decide

/-- C6 amended: flushes of both stores and the progress record happen after
every candidate whose 1-based input position is a multiple of the checkpoint
interval K and whose processing raised no exception (K is 10 in
batch_research.py, 50 in research_all_unknowns.py), and unconditionally at
shutdown — after normal completion and after an interrupt alike. -/
theorem c6_checkpoint_discipline (K total i0 : Nat) (s : RunState)
    (events : List Event) :
    (∀ (j : Nat) (sj : RunState) (b : Bool) (r : RRecord),
       (traceAux K total i0 s events).get? j = some sj →
       events.get? j = some (Event.ok b r) → (i0 + j) % K = 0 → synced sj) ∧
    synced (runAux K total i0 s events) :=
  ⟨fun j sj b r ht he hm => traceAux_flush_at events K total i0 s j sj b r ht he hm,
   runAux_synced events K total i0 s⟩

/-- C6 witness: `c6_checkpoint_discipline` on a one-candidate run starting at
input position 10 with interval 10: the state after that candidate is synced,
and so is the final state. -/
theorem c6_checkpoint_discipline_witness :
    synced (stepEv 10 1 10 Samples.st0 (Event.ok true (Samples.recN 1))) ∧
    synced (runAux 10 1 10 Samples.st0 [Event.ok true (Samples.recN 1)]) := by
  have h := c6_checkpoint_discipline 10 1 10 Samples.st0 [Event.ok true (Samples.recN 1)]
  exact ⟨h.1 0 _ true (Samples.recN 1) rfl rfl (by decide), h.2⟩

/-- The classifier's return value never depends on the sink-write outcome:
every identified branch returns the same pair whether `set_project_backend`
succeeded or failed. -/
theorem research_canister_sink_irrelevant (cid : String) (rank : Nat)
    (today : String) (ev : Evidence) (a b : Bool) :
    research_canister cid rank today ev a = research_canister cid rank today ev b := by
  unfold research_canister
  rcases ev with ⟨c, tok, ix, lt⟩
  rcases tok with _ | ⟨n, s⟩
  · rcases ix with _ | lid
    · rfl
    · rcases lt with _ | ⟨ln, ls⟩
      · rfl
      · simp
  · rcases h : identify_token n s with ⟨pr, ct⟩
    rcases pr with _ | p
    · simp [h]
    · simp [h]

/-- When the status is "identified" the record carries a project name. -/
theorem research_canister_identified_project (cid : String) (rank : Nat)
    (today : String) (ev : Evidence) (sk : Bool)
    (h : (research_canister cid rank today ev sk).1 = "identified") :
    (research_canister cid rank today ev sk).2.project.isSome = true := by
  unfold research_canister at *
  rcases ev with ⟨c, tok, ix, lt⟩
  rcases tok with _ | ⟨n, s⟩
  · rcases ix with _ | lid
    · simp_all
    · rcases lt with _ | ⟨ln, ls⟩
      · simp_all
      · rcases sk with _ | _ <;> simp_all
  · rcases hid : identify_token n s with ⟨pr, ct⟩
    rcases pr with _ | p
    · simp_all
    · rcases sk with _ | _ <;> simp_all

/-- Appending a successful result touches only the matching store; the
durable copies may be refreshed by the periodic flush but the in-memory
identified store always ends with the new record. -/
theorem stepEv_ok_appends (K total i : Nat) (s : RunState) (b : Bool)
    (r : RRecord) :
    (stepEv K total i s (Event.ok true r)).identified_results =
      s.identified_results ++ [r] ∧
    (stepEv K total i s (Event.ok false r)).unknown_results =
      s.unknown_results ++ [r] ∧
    (stepEv K total i s (Event.ok b r)).progress.researched =
      s.progress.researched + 1 := by
  refine ⟨?_, ?_, ?_⟩ <;>
    · simp only [stepEv, record, flush]
      split <;> cases b <;> rfl

/-- C9: for a candidate the classifier identifies, a failed sink write leaves
the returned result identical to the successful-sink result — still status
"identified" with the project set — and the main loop appends it to the
identified store and continues; the failure never yields an Unknown record
and never aborts the run. -/
theorem c9_sink_failure_tolerance (cid : String) (rank : Nat) (today : String)
    (ev : Evidence) (sinkOk : Bool) (K total i : Nat) (s : RunState)
    (events : List Event)
    (h : (research_canister cid rank today ev true).1 = "identified") :
    research_canister cid rank today ev sinkOk =
      research_canister cid rank today ev true ∧
    (research_canister cid rank today ev sinkOk).1 = "identified" ∧
    (research_canister cid rank today ev sinkOk).2.project.isSome = true ∧
    (stepEv K total i s
        (Event.ok true (research_canister cid rank today ev sinkOk).2)).identified_results =
      s.identified_results ++ [(research_canister cid rank today ev sinkOk).2] ∧
    runAux K total i s
        (Event.ok true (research_canister cid rank today ev sinkOk).2 :: events) =
      runAux K total (i + 1)
        (stepEv K total i s
          (Event.ok true (research_canister cid rank today ev sinkOk).2)) events := by
  have hs := research_canister_sink_irrelevant cid rank today ev sinkOk true
  refine ⟨hs, hs ▸ h, ?_, ?_, rfl⟩
  · exact research_canister_identified_project cid rank today ev sinkOk (hs ▸ h)
  · exact (stepEv_ok_appends K total i s true _).1

/-- C9 witness: `c9_sink_failure_tolerance` for the ODIN token evidence with
a failed sink write. -/
theorem c9_sink_failure_tolerance_witness :
    research_canister "aaaa" 1 "2025-01-01" Samples.evOdin false =
      research_canister "aaaa" 1 "2025-01-01" Samples.evOdin true ∧
    (research_canister "aaaa" 1 "2025-01-01" Samples.evOdin false).1 = "identified" ∧
    (research_canister "aaaa" 1 "2025-01-01" Samples.evOdin false).2.project.isSome = true := by
  have h := c9_sink_failure_tolerance "aaaa" 1 "2025-01-01" Samples.evOdin false
    10 1 1 Samples.st0 [] (by decide)
  exact ⟨h.1, h.2.1, h.2.2.1⟩

/-- A run whose events never produce a record for `cid` never puts `cid` into
either store. -/
theorem runAux_absent (events : List Event) (K total : Nat) (cid : String) :
    ∀ (i : Nat) (s : RunState),
      cid ∉ ids s.identified_results → cid ∉ ids s.unknown_results →
      (∀ (b : Bool) (r : RRecord), Event.ok b r ∈ events → r.canister_id ≠ cid) →
      cid ∉ ids (runAux K total i s events).identified_results ∧
      cid ∉ ids (runAux K total i s events).unknown_results := by
  induction events with
  | nil => intro i s h1 h2 _; exact ⟨h1, h2⟩
  | cons e es ih =>
    intro i s h1 h2 hok
    cases e with
    | ok b r =>
      have hr : r.canister_id ≠ cid := hok b r (List.mem_cons_self _ _)
      have h1' : cid ∉ ids (stepEv K total i s (.ok b r)).identified_results := by
        cases b with
        | true =>
          rw [(stepEv_ok_appends K total i s true r).1]
          simp [ids] at h1 ⊢
          exact ⟨h1, fun hc => hr hc.symm⟩
        | false =>
          simp only [stepEv, record, flush]
          split <;> simp [ids] at h1 ⊢ <;> exact h1
      have h2' : cid ∉ ids (stepEv K total i s (.ok b r)).unknown_results := by
        cases b with
        | true =>
          simp only [stepEv, record, flush]
          split <;> simp [ids] at h2 ⊢ <;> exact h2
        | false =>
          rw [(stepEv_ok_appends K total i s false r).2.1]
          simp [ids] at h2 ⊢
          exact ⟨h2, fun hc => hr hc.symm⟩
      exact ih (i + 1) _ h1' h2'
        (fun b' r' hm => hok b' r' (List.mem_cons_of_mem _ hm))
    | err c =>
      exact ih (i + 1) s h1 h2 (fun b' r' hm => hok b' r' (List.mem_cons_of_mem _ hm))
    | intr => exact ⟨h1, h2⟩

/-- C10: an unexpected exception while processing one candidate leaves the
whole run state unchanged (stores, durable copies, and every progress
counter), the loop continues with the following candidates, and a candidate
id that only ever fails — and was absent from the loaded stores — is absent
from both stores when the run ends, so a later resume re-processes it. -/
theorem c10_error_atomicity (K total i : Nat) (s : RunState) (cid : String)
    (events : List Event)
    (h1 : cid ∉ ids s.identified_results) (h2 : cid ∉ ids s.unknown_results)
    (hok : ∀ (b : Bool) (r : RRecord), Event.ok b r ∈ events → r.canister_id ≠ cid) :
    stepEv K total i s (Event.err cid) = s ∧
    runAux K total i s (Event.err cid :: events) = runAux K total (i + 1) s events ∧
    cid ∉ ids (runAux K total (i + 1) s events).identified_results ∧
    cid ∉ ids (runAux K total (i + 1) s events).unknown_results := by
  refine ⟨rfl, rfl, ?_⟩
  exact runAux_absent events K total cid (i + 1) s h1 h2 hok

/-- C10 witness: `c10_error_atomicity` on the 11-event sample run for the
candidate that raises at input position 10. -/
theorem c10_error_atomicity_witness :
    stepEv 10 11 10 Samples.st0 (Event.err "c10") = Samples.st0 ∧
    "c10" ∉ ids (runAux 10 11 11 Samples.st0 [Event.ok true (Samples.recN 11)]).identified_results := by
  have h := c10_error_atomicity 10 11 10 Samples.st0 "c10"
    [Event.ok true (Samples.recN 11)] (by decide) (by decide)
    (by intro b r hm; simp at hm; rw [hm.2]; decide)
  exact ⟨h.1, h.2.2.1⟩

/-! Helper lemmas for the merge model. -/

open Consolidate in
/-- A successful lookup exhibits a member. -/
theorem lookup_mem {b : Dict} {X : String} {r : CRecord}
    (h : b.lookup X = some r) : (X, r) ∈ b := by
  induction b with
  | nil => simp [List.lookup] at h
  | cons kv rest ih =>
    rcases kv with ⟨k, v⟩
    rcases hk : (X == k) with _ | _
    · simp only [List.lookup, hk] at h
      exact List.mem_cons_of_mem _ (ih h)
    · simp only [List.lookup, hk] at h
      have hXk : X = k := by simpa using hk
      have hvr : v = r := by simpa using h
      rw [hXk, hvr]
      exact List.mem_cons_self _ _

open Consolidate in
/-- With unique keys, every member with the looked-up key carries the
looked-up value. -/
theorem lookup_unique {b : Dict} {X : String} {r d : CRecord}
    (hb : (b.map Prod.fst).Nodup) (h : b.lookup X = some r)
    (hd : (X, d) ∈ b) : d = r := by
  induction b with
  | nil => simp at hd
  | cons kv rest ih =>
    rcases kv with ⟨k, v⟩
    simp only [List.map_cons, List.nodup_cons] at hb
    rcases List.mem_cons.mp hd with hhead | htail
    · have hkX : k = X := by
        have := congrArg Prod.fst hhead.symm; simpa using this
      have hvd : v = d := by
        have := congrArg Prod.snd hhead.symm; simpa using this
      rw [hkX] at h
      simp only [List.lookup, beq_self_eq_true] at h
      have hvr : v = r := by simpa using h
      rw [← hvd, hvr]
    · have hXk : X ≠ k := by
        intro hk
        exact hb.1 (by
          rw [← hk]
          exact List.mem_map.mpr ⟨(X, d), htail, rfl⟩)
      simp only [List.lookup, beq_false_of_ne hXk] at h
      exact ih hb.2 h htail

open Consolidate in
/-- A key absent from the key list looks up to nothing. -/
theorem lookup_eq_none_of_not_mem {a : Dict} {X : String}
    (h : X ∉ a.map Prod.fst) : a.lookup X = none := by
  induction a with
  | nil => rfl
  | cons kv rest ih =>
    rcases kv with ⟨k, v⟩
    simp only [List.map_cons, List.mem_cons] at h
    push_neg at h
    simp only [List.lookup, beq_false_of_ne h.1]
    exact ih h.2

open Consolidate in
/-- If the later dict holds `r` at key `X`, the Python merge holds `(X, r)`. -/
theorem pyMerge_mem_of_lookup {a b : Dict} {X : String} {r : CRecord}
    (h : b.lookup X = some r) : (X, r) ∈ pyMerge a b := by
  by_cases hX : X ∈ a.map Prod.fst
  · rcases List.mem_map.mp hX with ⟨kv, hkv, hfst⟩
    apply List.mem_append_left
    apply List.mem_map.mpr
    refine ⟨kv, hkv, ?_⟩
    rw [← hfst] at h ⊢
    simp [h]
  · apply List.mem_append_right
    apply List.mem_filter.mpr
    exact ⟨lookup_mem h, by simp [lookup_eq_none_of_not_mem hX]⟩

open Consolidate in
/-- With unique keys in the later dict, every merged entry at key `X` holds
the later dict's value. -/
theorem pyMerge_val_unique {a b : Dict} {X : String} {r d : CRecord}
    (hb : (b.map Prod.fst).Nodup) (h : b.lookup X = some r)
    (hd : (X, d) ∈ pyMerge a b) : d = r := by
  rcases List.mem_append.mp hd with hleft | hright
  · rcases List.mem_map.mp hleft with ⟨kv, hkv, hf⟩
    rcases hv : b.lookup kv.1 with _ | v
    · rw [hv] at hf
      have hk1 : kv.1 = X := by
        have := congrArg Prod.fst hf; simpa using this
      rw [hk1] at hv
      rw [hv] at h; exact absurd h (by simp)
    · rw [hv] at hf
      have hk1 : kv.1 = X := by
        have := congrArg Prod.fst hf; simpa using this
      have hvd : v = d := by
        have := congrArg Prod.snd hf; simpa using this
      rw [hk1] at hv
      rw [hv] at h
      rw [← hvd]
      exact Option.some_inj.mp h
  · exact lookup_unique hb h (List.mem_filter.mp hright).1

open Consolidate in
/-- A member whose project is a real name lands in `by_canister`. -/
theorem mem_by_canister {l : Dict} {X : String} {r : CRecord}
    (hm : (X, r) ∈ l) (hp1 : r.project ≠ "Unknown")
    (hp2 : r.project ≠ "Unknown Token") :
    (X, r.project) ∈ (create_project_mappings l).by_canister := by
  induction l with
  | nil => simp at hm
  | cons kv rest ih =>
    rcases kv with ⟨cid, data⟩
    rcases List.mem_cons.mp hm with hhead | htail
    · have hcid : cid = X := by
        have := congrArg Prod.fst hhead.symm; simpa using this
      have hdata : data = r := by
        have := congrArg Prod.snd hhead.symm; simpa using this
      subst hcid; subst hdata
      simp only [create_project_mappings]
      apply List.mem_append_left
      simp [bne_iff_ne, hp1, hp2]
    · simp only [create_project_mappings]
      exact List.mem_append_right _ (ih htail)

open Consolidate in
/-- If no member at key `X` has project "Unknown", `X` never lands in the
`unknown` list. -/
theorem not_mem_unknown {l : Dict} {X : String}
    (h : ∀ d : CRecord, (X, d) ∈ l → d.project ≠ "Unknown") :
    X ∉ (create_project_mappings l).unknown := by
  induction l with
  | nil => simp [create_project_mappings]
  | cons kv rest ih =>
    rcases kv with ⟨cid, data⟩
    simp only [create_project_mappings]
    intro hmem
    rcases List.mem_append.mp hmem with hleft | hright
    · rcases hc : (data.rtype != "token" && data.project == "Unknown") with _ | _
      · rw [hc] at hleft; simp at hleft
      · rw [hc] at hleft
        simp at hleft
        have hXcid : X = cid := hleft
        have hUnk : data.project = "Unknown" := by
          have := (Bool.and_eq_true _ _).mp hc
          simpa using this.2
        exact h data (by rw [hXcid]; exact List.mem_cons_self _ _) hUnk
    · exact ih (fun d hd => h d (List.mem_cons_of_mem _ hd)) hright

/-- C7 counterexample: with the same two stores merged in the two possible
orders, the store holding the Identified record for id xxxx only wins when it
comes last; when the Unknown store comes last, the unified view drops the
Identified record and lists xxxx as unknown — so an Identified record in a
merged input does not outrank a later Unknown record. -/
theorem c7_counterexample :
    Samples.identRec.project = "Foo Wallet" ∧
    Consolidate.create_project_mappings
        (Consolidate.pyMerge [("xxxx", Samples.identRec)] [("xxxx", Samples.unkRec)]) =
      { by_canister := [], icrc1_tokens := [], non_token_canisters := [],
        unknown := ["xxxx"] } ∧
    Consolidate.create_project_mappings
        (Consolidate.pyMerge [("xxxx", Samples.unkRec)] [("xxxx", Samples.identRec)]) =
      { by_canister := [("xxxx", "Foo Wallet")], icrc1_tokens := [],
        non_token_canisters := ["xxxx"], unknown := [] } := by
  refine ⟨rfl, by decide, by decide⟩

/-- C7 amended: the merge is last-writer-wins keyed by id: when the later
store (with unique keys) holds an Identified record for id X, the unified
view lists X under `by_canister` with that project and X does not appear in
the `unknown` list — any earlier Unknown record for X is dropped.  (In the
other order an Unknown record overrides an earlier Identified one, as the
counterexample shows, so promotion depends on store order.) -/
theorem c7_last_writer_promotion (a b : Consolidate.Dict) (X : String)
    (r : Consolidate.CRecord)
    (hb : (b.map Prod.fst).Nodup) (hX : b.lookup X = some r)
    (hp1 : r.project ≠ "Unknown") (hp2 : r.project ≠ "Unknown Token") :
    (X, r.project) ∈
      (Consolidate.create_project_mappings (Consolidate.pyMerge a b)).by_canister ∧
    X ∉ (Consolidate.create_project_mappings (Consolidate.pyMerge a b)).unknown := by
  constructor
  · exact mem_by_canister (pyMerge_mem_of_lookup hX) hp1 hp2
  · exact not_mem_unknown (fun d hd => by
      rw [pyMerge_val_unique hb hX hd]; exact hp1)

/-- C7 witness: `c7_last_writer_promotion` with the Unknown store first and
the Identified store last. -/
theorem c7_last_writer_promotion_witness :
    ("xxxx", Samples.identRec.project) ∈
      (Consolidate.create_project_mappings
        (Consolidate.pyMerge [("xxxx", Samples.unkRec)]
          [("xxxx", Samples.identRec)])).by_canister ∧
    "xxxx" ∉
      (Consolidate.create_project_mappings
        (Consolidate.pyMerge [("xxxx", Samples.unkRec)]
          [("xxxx", Samples.identRec)])).unknown :=
  c7_last_writer_promotion [("xxxx", Samples.unkRec)] [("xxxx", Samples.identRec)]
    "xxxx" Samples.identRec (by decide) (by decide) (by decide) (by decide)

/-- C8 counterexample: two consolidation runs over the same inputs at clock
readings one second apart produce master-doc statistics blocks that differ
(the block embeds the Last Updated timestamp), so not every generated
artifact is byte-identical between two runs. -/
theorem c8_counterexample :
    (Consolidate.consolidate [("xxxx", Samples.identRec)] []
        "2025-06-01 10:00:00").master_stats ≠
      (Consolidate.consolidate [("xxxx", Samples.identRec)] []
        "2025-06-01 10:00:01").master_stats := by
  decide

/-- C8 amended: over the same input stores in the same order, two
consolidation runs produce identical project_mappings.json and
canister_projects.csv artifacts whatever the clock reads, and all three
artifacts — the master-doc statistics included — are identical when the two
runs read the same clock value. -/
theorem c8_merge_determinism (original new : Consolidate.Dict) (t1 t2 : String) :
    (Consolidate.consolidate original new t1).mappings =
      (Consolidate.consolidate original new t2).mappings ∧
    (Consolidate.consolidate original new t1).csv =
      (Consolidate.consolidate original new t2).csv ∧
    (t1 = t2 →
      Consolidate.consolidate original new t1 =
        Consolidate.consolidate original new t2) := by
  exact ⟨rfl, rfl, fun h => by rw [h]⟩

/-- C8 witness: `c8_merge_determinism` at equal concrete timestamps. -/
theorem c8_merge_determinism_witness :
    Consolidate.consolidate [("xxxx", Samples.identRec)] [] "2025-06-01 10:00:00" =
      Consolidate.consolidate [("xxxx", Samples.identRec)] [] "2025-06-01 10:00:00" :=
  (c8_merge_determinism [("xxxx", Samples.identRec)] [] "2025-06-01 10:00:00"
    "2025-06-01 10:00:00").2.2 rfl

end Claims

end Cyclescan
